import Mathlib

/-!
Verification development for the BKM-15R remote-control firmware
(`bkm-15r.ino` plus its later revisions).  The coordination core of the
firmware is shallowly embedded below: the bounded ring-buffer command
queue (`Queue<T>`), the long-poll waiter registry (`WaiterQueue`), the
status-poll decoder (`updateStatus`), and the HTTP request handler
branches (`handleReq`) for toggle, info-push, status-wait and turn-knob
requests.

Modelling conventions:
* C `uint8_t`/`uint16_t`/`int` counters and words become `Nat`/`Int`;
  wherever C overflow or implicit narrowing matters the reduction
  `% 2 ^ w` is written explicitly.
* C character arrays and Arduino `String`s become `List Char`
  (all data handled by these paths is ASCII).
* Arrays whose cells may be uninitialised (`malloc`-backed queue
  storage) become total functions `Nat → T`, updated pointwise.
* Fallible reads are driven by explicit inputs: `updateStatus` takes
  the byte-availability trace of the socket and the 53-byte response.
-/

/-- `CommandType` from the source (`CT_STATUS`, `CT_INFO`, `CT_INFOKNOB`). -/
inductive CommandType where
  | CT_STATUS
  | CT_INFO
  | CT_INFOKNOB
deriving DecidableEq, Repr

/-- `#define COMMAND_LEN (25)` — size of `Command_t::m_command`. -/
def COMMAND_LEN : Nat := 25

/-- `#define MAX_QUEUELEN (8)` — capacity of the command queue. -/
def MAX_QUEUELEN : Nat := 8

/-- `Command_t`: a command tag plus the ASCII command text stored in the
25-byte `m_command` buffer.  The text is modelled as the character list
that `strcpy`/`snprintf` leaves in the buffer, without the terminator. -/
structure Command_t where
  m_commandType : CommandType
  m_command : List Char
deriving DecidableEq, Repr

/-- The `Queue<T>` template class: a bounded ring buffer over a
`malloc`-backed store.  `m_queueData` is the backing array, modelled as
a total function from index to cell contents.  All four counters are
`uint8_t` in the source; their values never exceed `m_maxCount ≤ 8`,
so plain `Nat` arithmetic is exact. -/
structure Queue (T : Type) where
  m_maxCount : Nat
  m_tail : Nat
  m_head : Nat
  m_count : Nat
  m_queueData : Nat → T

/-- `Queue(queueLen)` constructor: head, tail and count start at 0; the
`malloc`ed store holds arbitrary initial contents `init`. -/
def Queue.mkEmpty (T : Type) (queueLen : Nat) (init : Nat → T) : Queue T :=
  ⟨queueLen, 0, 0, 0, init⟩

/-- `Queue::push`: if `m_count + 1 > m_maxCount` the call returns with no
effect; otherwise the entry is stored at `m_head`, and `m_head` is
incremented with wrap-around at `m_maxCount`. -/
def Queue.push {T : Type} (q : Queue T) (t : T) : Queue T :=
  if q.m_count + 1 > q.m_maxCount then q
  else
    { q with
      m_queueData := fun i => if i = q.m_head then t else q.m_queueData i,
      m_head := if q.m_head + 1 ≥ q.m_maxCount then 0 else q.m_head + 1,
      m_count := q.m_count + 1 }

/-- `Queue::pop`: returns `NULL` on an empty queue; otherwise copies out
the entry at `m_tail`, increments `m_tail` with wrap-around and
decrements `m_count`. -/
def Queue.pop {T : Type} (q : Queue T) : Option (T × Queue T) :=
  if q.m_count = 0 then none
  else
    some (q.m_queueData q.m_tail,
      { q with
        m_tail := if q.m_tail + 1 ≥ q.m_maxCount then 0 else q.m_tail + 1,
        m_count := q.m_count - 1 })

/-- `Queue::getCount`. -/
def Queue.getCount {T : Type} (q : Queue T) : Nat := q.m_count

/-- Push a whole list of entries, first element first (a sequence of
`Queue::push` calls). -/
def Queue.pushAll {T : Type} (q : Queue T) (l : List T) : Queue T :=
  l.foldl Queue.push q

/-- Perform `n` `Queue::pop` calls, collecting the returned entries in
order. -/
def Queue.popN {T : Type} : Queue T → Nat → List T
  | _, 0 => []
  | q, n + 1 =>
    match q.pop with
    | none => []
    | some (x, q') => x :: q'.popN n

/-- The abstract contents of the ring buffer, oldest entry first. -/
def Queue.toList {T : Type} (q : Queue T) : List T :=
  (List.range q.m_count).map (fun i => q.m_queueData ((q.m_tail + i) % q.m_maxCount))

/-- Well-formedness of the ring buffer counters, maintained by every
`Queue` operation from the empty queue. -/
def Queue.WF {T : Type} (q : Queue T) : Prop :=
  0 < q.m_maxCount ∧ q.m_tail < q.m_maxCount ∧ q.m_count ≤ q.m_maxCount ∧
    q.m_head = (q.m_tail + q.m_count) % q.m_maxCount

theorem Queue.WF_mkEmpty {T : Type} (queueLen : Nat) (init : Nat → T)
    (h : 0 < queueLen) : (Queue.mkEmpty T queueLen init).WF := by
  refine ⟨h, h, Nat.zero_le _, ?_⟩
  simp [Queue.mkEmpty]

theorem Queue.toList_mkEmpty {T : Type} (queueLen : Nat) (init : Nat → T) :
    (Queue.mkEmpty T queueLen init).toList = [] := by
  simp [Queue.mkEmpty, Queue.toList]

theorem Queue.WF_push {T : Type} (q : Queue T) (t : T) (hwf : q.WF) :
    (q.push t).WF := by
  obtain ⟨hmax, htail, hcnt, hhead⟩ := hwf
  unfold Queue.push
  by_cases hfull : q.m_count + 1 > q.m_maxCount
  · rw [if_pos hfull]; exact ⟨hmax, htail, hcnt, hhead⟩
  · rw [if_neg hfull]
    refine ⟨hmax, htail, show q.m_count + 1 ≤ q.m_maxCount by omega, ?_⟩
    have hh : q.m_head < q.m_maxCount := by
      rw [hhead]; exact Nat.mod_lt _ hmax
    have key : (q.m_head + 1) % q.m_maxCount
        = (q.m_tail + (q.m_count + 1)) % q.m_maxCount := by
      rw [hhead, Nat.mod_add_mod, Nat.add_assoc]
    show (if q.m_head + 1 ≥ q.m_maxCount then 0 else q.m_head + 1)
      = (q.m_tail + (q.m_count + 1)) % q.m_maxCount
    by_cases hw : q.m_head + 1 ≥ q.m_maxCount
    · rw [if_pos hw]
      have h1 : q.m_head + 1 = q.m_maxCount := by omega
      rw [← key, h1, Nat.mod_self]
    · rw [if_neg hw]
      rw [← key, Nat.mod_eq_of_lt (by omega)]

theorem Queue.maxCount_push {T : Type} (q : Queue T) (t : T) :
    (q.push t).m_maxCount = q.m_maxCount := by
  unfold Queue.push
  split <;> rfl

theorem Queue.count_push {T : Type} (q : Queue T) (t : T)
    (hlt : q.m_count < q.m_maxCount) : (q.push t).m_count = q.m_count + 1 := by
  unfold Queue.push
  rw [if_neg (by omega)]

theorem Queue.toList_push {T : Type} (q : Queue T) (t : T) (hwf : q.WF)
    (hlt : q.m_count < q.m_maxCount) : (q.push t).toList = q.toList ++ [t] := by
  obtain ⟨hmax, htail, hcnt, hhead⟩ := hwf
  unfold Queue.push Queue.toList
  rw [if_neg (by omega)]
  simp only
  rw [List.range_succ, List.map_append, List.map_singleton]
  congr 1
  · apply List.map_congr_left
    intro i hi
    rw [List.mem_range] at hi
    have hne : (q.m_tail + i) % q.m_maxCount ≠ q.m_head := by
      rw [hhead]
      intro hcontra
      have hm : Nat.ModEq q.m_maxCount (q.m_tail + i) (q.m_tail + q.m_count) := hcontra
      have hm2 : Nat.ModEq q.m_maxCount i q.m_count := Nat.ModEq.add_left_cancel' _ hm
      have : i % q.m_maxCount = q.m_count % q.m_maxCount := hm2
      rw [Nat.mod_eq_of_lt (by omega), Nat.mod_eq_of_lt (by omega)] at this
      omega
    rw [if_neg hne]
  · have : (q.m_tail + q.m_count) % q.m_maxCount = q.m_head := hhead.symm
    rw [this, if_pos rfl]

theorem Queue.pop_toList {T : Type} (q : Queue T) (hwf : q.WF)
    (hpos : 0 < q.m_count) :
    ∃ x q', q.pop = some (x, q') ∧ q.toList = x :: q'.toList ∧ q'.WF ∧
      q'.m_count = q.m_count - 1 := by
  obtain ⟨hmax, htail, hcnt, hhead⟩ := hwf
  refine ⟨q.m_queueData q.m_tail,
    { q with
      m_tail := if q.m_tail + 1 ≥ q.m_maxCount then 0 else q.m_tail + 1,
      m_count := q.m_count - 1 }, ?_, ?_, ?_, rfl⟩
  · unfold Queue.pop
    rw [if_neg (by omega)]
  · unfold Queue.toList
    simp only
    obtain ⟨m, hm⟩ : ∃ m, q.m_count = m + 1 := ⟨q.m_count - 1, by omega⟩
    rw [hm]
    rw [List.range_succ_eq_map, List.map_cons, List.map_map]
    have htail' :
        (if q.m_tail + 1 ≥ q.m_maxCount then 0 else q.m_tail + 1)
          = (q.m_tail + 1) % q.m_maxCount := by
      by_cases hw : q.m_tail + 1 ≥ q.m_maxCount
      · rw [if_pos hw]
        have : q.m_tail + 1 = q.m_maxCount := by omega
        rw [this, Nat.mod_self]
      · rw [if_neg hw, Nat.mod_eq_of_lt (by omega)]
    congr 1
    · rw [Nat.add_zero, Nat.mod_eq_of_lt htail]
    · rw [htail']
      apply List.map_congr_left
      intro i _
      simp only [Function.comp]
      rw [Nat.mod_add_mod]
      congr 2
      omega
  · constructor
    · exact hmax
    constructor
    · by_cases hw : q.m_tail + 1 ≥ q.m_maxCount
      · simp only [if_pos hw]; omega
      · simp only [if_neg hw]; omega
    constructor
    · simp only; omega
    · simp only
      have htail' :
          (if q.m_tail + 1 ≥ q.m_maxCount then 0 else q.m_tail + 1)
            = (q.m_tail + 1) % q.m_maxCount := by
        by_cases hw : q.m_tail + 1 ≥ q.m_maxCount
        · rw [if_pos hw]
          have : q.m_tail + 1 = q.m_maxCount := by omega
          rw [this, Nat.mod_self]
        · rw [if_neg hw, Nat.mod_eq_of_lt (by omega)]
      rw [htail', hhead, Nat.mod_add_mod]
      congr 1
      omega

theorem Queue.popN_toList {T : Type} :
    ∀ (n : Nat) (q : Queue T), q.WF → q.m_count = n → q.popN n = q.toList := by
  intro n
  induction n with
  | zero =>
    intro q hwf h0
    unfold Queue.popN Queue.toList
    rw [h0]
    simp
  | succ n ih =>
    intro q hwf hc
    obtain ⟨x, q', hpop, hlist, hwf', hcnt'⟩ := Queue.pop_toList q hwf (by omega)
    rw [hlist]
    unfold Queue.popN
    rw [hpop]
    show x :: q'.popN n = x :: q'.toList
    rw [ih q' hwf' (by omega)]

theorem Queue.pushAll_spec {T : Type} :
    ∀ (l : List T) (q : Queue T), q.WF → q.m_count + l.length ≤ q.m_maxCount →
      (q.pushAll l).WF ∧ (q.pushAll l).toList = q.toList ++ l ∧
        (q.pushAll l).m_count = q.m_count + l.length := by
  intro l
  induction l with
  | nil =>
    intro q hwf _
    refine ⟨hwf, by simp [Queue.pushAll], by simp [Queue.pushAll]⟩
  | cons x xs ih =>
    intro q hwf hle
    simp only [List.length_cons] at hle
    have hlt : q.m_count < q.m_maxCount := by omega
    have h1 := Queue.WF_push q x hwf
    have h2 := Queue.toList_push q x hwf hlt
    have h3 := Queue.count_push q x hlt
    have h4 := Queue.maxCount_push q x
    have hstep : q.pushAll (x :: xs) = (q.push x).pushAll xs := by
      simp [Queue.pushAll]
    obtain ⟨ha, hb, hc⟩ := ih (q.push x) h1 (by rw [h3, h4]; omega)
    refine ⟨by rw [hstep]; exact ha, ?_, ?_⟩
    · rw [hstep, hb, h2, List.append_assoc]
      simp
    · rw [hstep, hc, h3]
      simp only [List.length_cons]
      omega

/-- C1: for any sequence of at most `MAX_QUEUELEN` commands pushed onto
the command queue starting from an empty queue, with no interleaved
pops, a subsequent sequence of pops returns exactly those commands in
the order they were pushed: `Queue<Command_t>::pop` removes and returns
the oldest pushed, not-yet-consumed entry. -/
theorem commandQueue_fifo (init : Nat → Command_t) (l : List Command_t)
    (hlen : l.length ≤ MAX_QUEUELEN) :
    ((Queue.mkEmpty Command_t MAX_QUEUELEN init).pushAll l).popN l.length = l := by
  have hwf0 : (Queue.mkEmpty Command_t MAX_QUEUELEN init).WF :=
    Queue.WF_mkEmpty _ _ (by decide)
  obtain ⟨hwf, hlist, hcnt⟩ :=
    Queue.pushAll_spec l (Queue.mkEmpty Command_t MAX_QUEUELEN init) hwf0
      (by simpa [Queue.mkEmpty] using hlen)
  rw [Queue.popN_toList l.length _ hwf (by simpa [Queue.mkEmpty] using hcnt)]
  rw [hlist, Queue.toList_mkEmpty]
  simp

/-- Arbitrary backing-store contents used to instantiate witnesses. -/
def cinit : Nat → Command_t := fun _ => ⟨CommandType.CT_STATUS, []⟩

/-- Witness for C1: pushing three concrete commands and popping three
times returns them in push order. -/
theorem commandQueue_fifo_witness :
    ((Queue.mkEmpty Command_t MAX_QUEUELEN cinit).pushAll
        [⟨CommandType.CT_STATUS, "POWER".data⟩,
         ⟨CommandType.CT_INFO, "MENU".data⟩,
         ⟨CommandType.CT_STATUS, "DEGAUSS".data⟩]).popN 3
      = [⟨CommandType.CT_STATUS, "POWER".data⟩,
         ⟨CommandType.CT_INFO, "MENU".data⟩,
         ⟨CommandType.CT_STATUS, "DEGAUSS".data⟩] :=
  commandQueue_fifo cinit _ (by decide)

/-- HTTP status lines emitted by the `handleReq` branches: `200 OK`,
`503 Service Unavailable`, `404 Not Found`. -/
inductive HttpResp where
  | ok200
  | unavailable503
  | notFound404
deriving DecidableEq, Repr

/-- The `toggleURL` branch of `handleReq`: under the lock, if the queue
is not at capacity the URL suffix is `strcpy`ed into a fresh command of
type `CT_STATUS` and pushed; in every case the response is `200 OK`. -/
def handleToggleReq (q : Queue Command_t) (suffix : List Char) :
    HttpResp × Queue Command_t :=
  if q.getCount < MAX_QUEUELEN then
    (HttpResp.ok200, q.push ⟨CommandType.CT_STATUS, suffix⟩)
  else (HttpResp.ok200, q)

/-- `snprintf(cmd.m_command, COMMAND_LEN, "R %s 96/%d/%d", ...)` before
truncation: the full formatted text for a knob command.  The `pos`
branch selects between the plain and the minus-sign `96` formats. -/
def knobTextFull (knob : List Char) (pos : Bool) (factor value : Int) : List Char :=
  "R ".data ++ knob ++ " 96/".data ++ (if pos then [] else "-".data) ++
    (toString factor).data ++ "/".data ++ (toString value).data

/-- The text actually left in `Command_t::m_command` by `snprintf` with
size `COMMAND_LEN`: at most `COMMAND_LEN - 1` characters are kept (the
last buffer byte holds the terminator). -/
def knobCmdText (knob : List Char) (pos : Bool) (factor value : Int) : List Char :=
  (knobTextFull knob pos factor value).take (COMMAND_LEN - 1)

/-- `#define INFO_KNOB "INFOknob"`. -/
def INFO_KNOB : List Char := "INFOknob".data

/-- The ASCII payload written after the frame length byte by
`sendInfoKnobPacket`: `INFO_KNOB`, a `0x20` separator, then the queued
command text. -/
def sendInfoKnobPayload (knobcmd : List Char) : List Char :=
  INFO_KNOB ++ " ".data ++ knobcmd

/-- The frame length byte written by `sendInfoKnobPacket`:
`strlen(INFO_KNOB) + strlen(knobcmd) + 1`, stored in a `uint8_t`. -/
def sendInfoKnobLenByte (knobcmd : List Char) : Nat :=
  (INFO_KNOB.length + knobcmd.length + 1) % 256

/-- `String::toInt` (Arduino), i.e. C `atol` on the text: skip leading
whitespace, take an optional sign, then accumulate decimal digits up to
the first non-digit; no digits yields 0.  (`long` overflow cannot occur
for the inputs this development evaluates and is not modelled.) -/
def digitsAcc : List Char → Nat → Nat
  | [], acc => acc
  | c :: rest, acc =>
    if c.isDigit then digitsAcc rest (acc * 10 + (c.toNat - 48)) else acc

def isAsciiSpace (c : Char) : Bool :=
  c = ' ' || c = '\t' || c = '\n' || c = '\x0b' || c = '\x0c' || c = '\r'

def atol (s : List Char) : Int :=
  match s.dropWhile isAsciiSpace with
  | '-' :: rest => -(digitsAcc rest 0 : Int)
  | '+' :: rest => (digitsAcc rest 0 : Int)
  | s1 => (digitsAcc s1 0 : Int)

/-- The `knobURL` branch of `handleReq`, applied to the four
`/`-separated parts of the URL suffix.  Mirrors the source control
flow: unknown knob name → `throw` → 404; direction other than `"n"` or
`"p"` → 404; `toInt` of factor or ticks equal to 0 → 404; otherwise the
formatted command is pushed when the queue has room (200) and the
request is answered 503 when it is full. -/
def handleKnobParts (q : Queue Command_t)
    (knobstr posstr factorstr valuestr : List Char) :
    HttpResp × Queue Command_t :=
  if knobstr ≠ "PHASE".data ∧ knobstr ≠ "CHROMA".data ∧
      knobstr ≠ "BRIGHTNESS".data ∧ knobstr ≠ "CONTRAST".data then
    (HttpResp.notFound404, q)
  else if posstr = "n".data ∨ posstr = "p".data then
    if atol factorstr = 0 ∨ atol valuestr = 0 then
      (HttpResp.notFound404, q)
    else if q.getCount < MAX_QUEUELEN then
      (HttpResp.ok200,
        q.push ⟨CommandType.CT_INFOKNOB,
          knobCmdText knobstr (decide (posstr = "p".data))
            (atol factorstr) (atol valuestr)⟩)
    else (HttpResp.unavailable503, q)
  else (HttpResp.notFound404, q)

/-- A command queue filled to capacity (8 identical toggle commands). -/
def q8ex : Queue Command_t :=
  (Queue.mkEmpty Command_t MAX_QUEUELEN cinit).pushAll
    (List.replicate 8 ⟨CommandType.CT_STATUS, "POWER".data⟩)

/-- C5 counterexample: with the queue at capacity, the toggle request
handler leaves the queue unchanged but still answers `200 OK` — the
dropped command is not surfaced to the originator as a "try again"
signal. -/
theorem handleToggle_full_silently_ok :
    (handleToggleReq q8ex "MARKER".data).1 = HttpResp.ok200 ∧
    (handleToggleReq q8ex "MARKER".data).2.toList = q8ex.toList ∧
    (handleToggleReq q8ex "MARKER".data).2.m_count = q8ex.m_count := by
  decide

/-- C5 (amended): pushing onto a full queue leaves the queue (count and
all entries) unchanged; the turn-knob handler surfaces the full queue
to its originator as `503 Service Unavailable`, while the toggle (and
info-push) handlers silently skip the enqueue and still answer
`200 OK`. -/
theorem queue_full_push_behavior :
    (∀ (q : Queue Command_t) (t : Command_t),
      q.m_count = q.m_maxCount → q.push t = q) ∧
    (∀ (q : Queue Command_t) (suffix : List Char), ¬ q.m_count < MAX_QUEUELEN →
      handleToggleReq q suffix = (HttpResp.ok200, q)) ∧
    (∀ (q : Queue Command_t) (ks ps fs vs : List Char),
      (ks = "PHASE".data ∨ ks = "CHROMA".data ∨ ks = "BRIGHTNESS".data ∨
        ks = "CONTRAST".data) →
      (ps = "n".data ∨ ps = "p".data) →
      atol fs ≠ 0 → atol vs ≠ 0 → ¬ q.m_count < MAX_QUEUELEN →
      handleKnobParts q ks ps fs vs = (HttpResp.unavailable503, q)) := by
  refine ⟨?_, ?_, ?_⟩
  · intro q t h
    unfold Queue.push
    rw [if_pos (by omega)]
  · intro q suffix h
    unfold handleToggleReq Queue.getCount
    rw [if_neg h]
  · intro q ks ps fs vs hks hps hf hv hfull
    unfold handleKnobParts Queue.getCount
    rw [if_neg (by
      intro hcon
      obtain ⟨a, b, c, d⟩ := hcon
      rcases hks with h | h | h | h <;> contradiction)]
    rw [if_pos hps, if_neg (fun h => h.elim hf hv), if_neg hfull]

/-- Witness for C5's amended theorem at the concrete full queue. -/
theorem queue_full_push_behavior_witness :
    q8ex.push ⟨CommandType.CT_STATUS, "POWER".data⟩ = q8ex ∧
    handleToggleReq q8ex "MARKER".data = (HttpResp.ok200, q8ex) ∧
    handleKnobParts q8ex "PHASE".data "p".data "10".data "5".data
      = (HttpResp.unavailable503, q8ex) :=
  ⟨queue_full_push_behavior.1 q8ex _ (by decide),
   queue_full_push_behavior.2.1 q8ex _ (by decide),
   queue_full_push_behavior.2.2 q8ex _ _ _ _ (Or.inl rfl) (Or.inr rfl)
     (by decide) (by decide) (by decide)⟩

/-- C6 counterexample: a valid knob request (knob BRIGHTNESS, forward,
factor 1000000, ticks 1000000 — all accepted by the handler's checks)
formats to 31 characters, so `snprintf` truncates the queued command
text to the first 24 characters and the deterministic untruncated
encoding is lost. -/
theorem knobCmdText_truncates :
    knobCmdText "BRIGHTNESS".data true 1000000 1000000
        ≠ "R BRIGHTNESS 96/1000000/1000000".data ∧
    knobCmdText "BRIGHTNESS".data true 1000000 1000000
        = "R BRIGHTNESS 96/1000000/".data := by
  decide

/-- C6 (amended): `enqueue_knob(PHASE, forward, 10, 5)` queues the text
`R PHASE 96/10/5`, draining the queue returns exactly that command, and
the sent frame payload is `INFOknob` + space + that text with the
length byte equal to the payload length; the same untruncated encoding
holds for every knob, direction, factor and ticks whose formatted text
fits within the 25-byte command buffer (shorter than `COMMAND_LEN`);
longer formatted texts are truncated to `COMMAND_LEN - 1` characters. -/
theorem knob_encode_spec :
    knobCmdText "PHASE".data true 10 5 = "R PHASE 96/10/5".data ∧
    sendInfoKnobPayload (knobCmdText "PHASE".data true 10 5)
      = "INFOknob R PHASE 96/10/5".data ∧
    sendInfoKnobLenByte (knobCmdText "PHASE".data true 10 5)
      = ("INFOknob R PHASE 96/10/5".data).length ∧
    (∀ init : Nat → Command_t,
      ((Queue.mkEmpty Command_t MAX_QUEUELEN init).push
          ⟨CommandType.CT_INFOKNOB, knobCmdText "PHASE".data true 10 5⟩).popN 1
        = [⟨CommandType.CT_INFOKNOB, knobCmdText "PHASE".data true 10 5⟩]) ∧
    (∀ (knob : List Char) (pos : Bool) (factor value : Int),
      (knobTextFull knob pos factor value).length < COMMAND_LEN →
      knobCmdText knob pos factor value = knobTextFull knob pos factor value ∧
      sendInfoKnobLenByte (knobCmdText knob pos factor value)
        = (sendInfoKnobPayload (knobCmdText knob pos factor value)).length) := by
  refine ⟨by decide, by decide, by decide, ?_, ?_⟩
  · intro init
    simp [Queue.mkEmpty, Queue.push, Queue.popN, Queue.pop, MAX_QUEUELEN]
  · intro knob pos factor value h
    have hle : (knobTextFull knob pos factor value).length ≤ COMMAND_LEN - 1 := by
      unfold COMMAND_LEN at *
      omega
    have heq : knobCmdText knob pos factor value = knobTextFull knob pos factor value :=
      List.take_of_length_le hle
    refine ⟨heq, ?_⟩
    rw [heq]
    unfold sendInfoKnobLenByte sendInfoKnobPayload INFO_KNOB
    simp only [List.length_append]
    rw [Nat.mod_eq_of_lt (by unfold COMMAND_LEN at h; simp; omega)]
    simp
    omega

/-- Witness for C6's amended theorem: a second concrete knob, reverse
direction, also encodes exactly. -/
theorem knob_encode_spec_witness :
    knobCmdText "CHROMA".data false 2 3 = knobTextFull "CHROMA".data false 2 3 ∧
    sendInfoKnobLenByte (knobCmdText "CHROMA".data false 2 3)
      = (sendInfoKnobPayload (knobCmdText "CHROMA".data false 2 3)).length :=
  knob_encode_spec.2.2.2.2 "CHROMA".data false 2 3 (by decide)

/-- C7: a knob request whose knob name is not one of
PHASE/CHROMA/BRIGHTNESS/CONTRAST, or whose direction part is neither
`p` nor `n`, or whose factor or ticks text parses to zero, is answered
`404 Not Found` and the command queue is returned unchanged (the
rejection happens before any push; no device state is touched by this
branch). -/
theorem handleKnob_invalid_404 (q : Queue Command_t)
    (ks ps fs vs : List Char)
    (h : (ks ≠ "PHASE".data ∧ ks ≠ "CHROMA".data ∧ ks ≠ "BRIGHTNESS".data ∧
            ks ≠ "CONTRAST".data) ∨
         (ps ≠ "p".data ∧ ps ≠ "n".data) ∨
         atol fs = 0 ∨ atol vs = 0) :
    handleKnobParts q ks ps fs vs = (HttpResp.notFound404, q) := by
  unfold handleKnobParts
  split_ifs with h1 h2 h3 h4 <;> first
    | rfl
    | (exfalso; tauto)

/-- Witness for C7: an unknown knob name `VOLUME` is rejected with 404
on the empty queue. -/
theorem handleKnob_invalid_404_witness :
    handleKnobParts (Queue.mkEmpty Command_t MAX_QUEUELEN cinit)
        "VOLUME".data "p".data "10".data "5".data
      = (HttpResp.notFound404, Queue.mkEmpty Command_t MAX_QUEUELEN cinit) :=
  handleKnob_invalid_404 _ _ _ _ _ (Or.inl (by decide))

/-- The set of byte indices written by `strcpy` into
`Command_t::m_command`: one byte per source character plus the
terminator. -/
def strcpyWrites (s : List Char) : List Nat := List.range (s.length + 1)

/-- All `strcpy` writes land inside the 25-byte `m_command` buffer. -/
def strcpyWithinBounds (s : List Char) : Prop :=
  ∀ i ∈ strcpyWrites s, i < COMMAND_LEN

/-- C10: the toggle-URL suffix is copied into the fixed 25-byte
`m_command` buffer by an unbounded `strcpy`; the write footprint stays
inside the buffer exactly when the suffix is strictly shorter than
`COMMAND_LEN` bytes, and the handler enqueues the full suffix for every
length — no length check guards the copy at the HTTP interface. -/
theorem toggle_strcpy_unbounded (suffix : List Char) :
    (strcpyWithinBounds suffix ↔ suffix.length < COMMAND_LEN) ∧
    (∀ q : Queue Command_t, q.m_maxCount = MAX_QUEUELEN →
      q.m_count < MAX_QUEUELEN →
      (handleToggleReq q suffix).1 = HttpResp.ok200 ∧
      (handleToggleReq q suffix).2.m_queueData q.m_head
        = ⟨CommandType.CT_STATUS, suffix⟩ ∧
      (handleToggleReq q suffix).2.m_count = q.m_count + 1) := by
  constructor
  · unfold strcpyWithinBounds strcpyWrites
    constructor
    · intro h
      have := h suffix.length (by rw [List.mem_range]; omega)
      omega
    · intro h i hi
      rw [List.mem_range] at hi
      omega
  · intro q hmax hq
    unfold handleToggleReq Queue.getCount
    rw [if_pos hq]
    refine ⟨rfl, ?_, ?_⟩
    · unfold Queue.push
      rw [if_neg (by omega)]
      show (if q.m_head = q.m_head then _ else _) = _
      rw [if_pos rfl]
    · exact Queue.count_push q _ (by omega)

/-- Witness for C10 at a 44-character suffix: the footprint bound fails
(44 ≥ 25) yet the handler still enqueues the whole suffix. -/
theorem toggle_strcpy_unbounded_witness :
    (strcpyWithinBounds "THIS_COMMAND_NAME_IS_WAY_TOO_LONG_FOR_BUFFER".data ↔
      ("THIS_COMMAND_NAME_IS_WAY_TOO_LONG_FOR_BUFFER".data).length < COMMAND_LEN) ∧
    ((handleToggleReq (Queue.mkEmpty Command_t MAX_QUEUELEN cinit)
        "THIS_COMMAND_NAME_IS_WAY_TOO_LONG_FOR_BUFFER".data).1 = HttpResp.ok200 ∧
      (handleToggleReq (Queue.mkEmpty Command_t MAX_QUEUELEN cinit)
        "THIS_COMMAND_NAME_IS_WAY_TOO_LONG_FOR_BUFFER".data).2.m_queueData
          (Queue.mkEmpty Command_t MAX_QUEUELEN cinit).m_head
        = ⟨CommandType.CT_STATUS,
            "THIS_COMMAND_NAME_IS_WAY_TOO_LONG_FOR_BUFFER".data⟩ ∧
      (handleToggleReq (Queue.mkEmpty Command_t MAX_QUEUELEN cinit)
        "THIS_COMMAND_NAME_IS_WAY_TOO_LONG_FOR_BUFFER".data).2.m_count
        = (Queue.mkEmpty Command_t MAX_QUEUELEN cinit).m_count + 1) :=
  ⟨(toggle_strcpy_unbounded _).1,
   (toggle_strcpy_unbounded _).2 _ rfl (by decide)⟩

/-- `State_t` from the source: the device state snapshot shared between
the poll loop and the web handlers. -/
structure State_t where
  m_linkUp : Bool
  m_connected : Bool
  m_isValid : Bool
  m_isPowered : Bool
  m_scanmode : Bool
  m_hdelay : Bool
  m_vdelay : Bool
  m_charmute : Bool
  m_monochrome : Bool
  m_marker : Bool
  m_extsync : Bool
  m_apt : Bool
  m_chromaup : Bool
  m_aspect : Bool
  m_coltemp : Bool
  m_comb : Bool
  m_blueonly : Bool
  m_rcutoff : Bool
  m_gcutoff : Bool
  m_bcutoff : Bool
  m_man_phase : Bool
  m_man_chroma : Bool
  m_man_bright : Bool
  m_man_contrast : Bool
deriving DecidableEq, Repr

def POWER_ON_STATUS : Nat := 0x8000
def SCANMODE_STATUS : Nat := 0x0400
def HDELAY_STATUS : Nat := 0x0200
def VDELAY_STATUS : Nat := 0x0100
def MONOCHROME_STATUS : Nat := 0x0080
def CHAR_MUTE_STATUS : Nat := 0x0040
def MARKER_MODE_STATUS : Nat := 0x0020
def EXTSYNC_STATUS : Nat := 0x0010
def APT_STATUS : Nat := 0x0008
def CHROMA_UP_STATUS : Nat := 0x0004
def ASPECT_STATUS : Nat := 0x0002
def COL_TEMP_STATUS : Nat := 0x0040
def COMB_STATUS : Nat := 0x0020
def BLUE_ONLY_STATUS : Nat := 0x0010
def R_CUTOFF_STATUS : Nat := 0x0004
def G_CUTOFF_STATUS : Nat := 0x0002
def B_CUTOFF_STATUS : Nat := 0x0001
def MAN_PHASE_STATUS : Nat := 0x0080
def MAN_CHROMA_STATUS : Nat := 0x0040
def MAN_BRIGHT_STATUS : Nat := 0x0020
def MAN_CONTRAST_STATUS : Nat := 0x0010

/-- C implicit conversion of `uint16 & mask` to `bool`: nonzero is
true. -/
def maskBit (w mask : Nat) : Bool := w &&& mask != 0

/-- One 16-bit status word decoded from 4 response bytes starting at
`off`: each byte, minus the `'0'` code point `0x30`, contributes one
nibble (shifts by 12, 8, 4, 0).  The C arithmetic happens in `int`
(bytes below `0x30` give negative nibbles) and the sum is then
assigned to a `uint16_t`, i.e. reduced modulo `2 ^ 16`. -/
def decodeWord (rsp : Nat → Nat) (off : Nat) : Nat :=
  ((((rsp off : Int) - 0x30) * 4096 + ((rsp (off + 1) : Int) - 0x30) * 256 +
      ((rsp (off + 2) : Int) - 0x30) * 16 + ((rsp (off + 3) : Int) - 0x30)).emod
    65536).toNat

/-- The block of `currentState` field assignments executed by
`updateStatus` when the decoded words differ from the cache: bits of
words 1, 3 and 4 become the boolean fields through the static mask
table, and `m_isValid` is set.  `m_linkUp` and `m_connected` are not
touched. -/
def decodeState (st : State_t) (w1 w3 w4 : Nat) : State_t :=
  { st with
    m_isPowered := maskBit w1 POWER_ON_STATUS,
    m_scanmode := maskBit w1 SCANMODE_STATUS,
    m_hdelay := maskBit w1 HDELAY_STATUS,
    m_vdelay := maskBit w1 VDELAY_STATUS,
    m_monochrome := maskBit w1 MONOCHROME_STATUS,
    m_charmute := maskBit w1 CHAR_MUTE_STATUS,
    m_marker := maskBit w1 MARKER_MODE_STATUS,
    m_extsync := maskBit w1 EXTSYNC_STATUS,
    m_apt := maskBit w1 APT_STATUS,
    m_chromaup := maskBit w1 CHROMA_UP_STATUS,
    m_aspect := maskBit w1 ASPECT_STATUS,
    m_coltemp := maskBit w3 COL_TEMP_STATUS,
    m_comb := maskBit w3 COMB_STATUS,
    m_blueonly := maskBit w3 BLUE_ONLY_STATUS,
    m_rcutoff := maskBit w3 R_CUTOFF_STATUS,
    m_gcutoff := maskBit w3 G_CUTOFF_STATUS,
    m_bcutoff := maskBit w3 B_CUTOFF_STATUS,
    m_man_phase := maskBit w4 MAN_PHASE_STATUS,
    m_man_chroma := maskBit w4 MAN_CHROMA_STATUS,
    m_man_bright := maskBit w4 MAN_BRIGHT_STATUS,
    m_man_contrast := maskBit w4 MAN_CONTRAST_STATUS,
    m_isValid := true }

/-- The globals touched by `updateStatus`: `currentState`, the
`statusUpdated` dirty flag, the five working words `statusw1..5` and
the five cached words (`_statusw1.._statusw5` in the source, named
`cachew1..cachew5` here because of the leading underscore). -/
structure DeviceCtx where
  currentState : State_t
  statusUpdated : Bool
  statusw1 : Nat
  statusw2 : Nat
  statusw3 : Nat
  statusw4 : Nat
  statusw5 : Nat
  cachew1 : Nat
  cachew2 : Nat
  cachew3 : Nat
  cachew4 : Nat
  cachew5 : Nat
deriving DecidableEq, Repr

/-- The tail of `updateStatus` executed after a full 53-byte status
response has been read into `status_response` (modelled by `rsp`):
decode the five words at offsets 29, 34, 39, 44, 49 into the working
globals, and when any differs from its cached value, rewrite
`currentState`, set `statusUpdated` and refresh the cache; otherwise
leave state, cache and flag as they were. -/
def updateStatusOk (ctx : DeviceCtx) (rsp : Nat → Nat) : DeviceCtx :=
  if decodeWord rsp 29 ≠ ctx.cachew1 ∨ decodeWord rsp 34 ≠ ctx.cachew2 ∨
      decodeWord rsp 39 ≠ ctx.cachew3 ∨ decodeWord rsp 44 ≠ ctx.cachew4 ∨
      decodeWord rsp 49 ≠ ctx.cachew5 then
    { currentState :=
        decodeState ctx.currentState (decodeWord rsp 29) (decodeWord rsp 39)
          (decodeWord rsp 44),
      statusUpdated := true,
      statusw1 := decodeWord rsp 29,
      statusw2 := decodeWord rsp 34,
      statusw3 := decodeWord rsp 39,
      statusw4 := decodeWord rsp 44,
      statusw5 := decodeWord rsp 49,
      cachew1 := decodeWord rsp 29,
      cachew2 := decodeWord rsp 34,
      cachew3 := decodeWord rsp 39,
      cachew4 := decodeWord rsp 44,
      cachew5 := decodeWord rsp 49 }
  else
    { ctx with
      statusw1 := decodeWord rsp 29,
      statusw2 := decodeWord rsp 34,
      statusw3 := decodeWord rsp 39,
      statusw4 := decodeWord rsp 44,
      statusw5 := decodeWord rsp 49 }

/-- `#define RECV_TIMEOUT (1000)`. -/
def RECV_TIMEOUT : Nat := 1000

/-- The wait loop at the top of `updateStatus`: starting from
`wait_ms`, poll the socket's available-byte count (`availAt t` after
`t` 1-ms delays) until a full 53-byte `status_response` is available,
incrementing `wait_ms` each round and breaking once it reaches
`RECV_TIMEOUT`; returns the final `wait_ms`. -/
def waitForBytes (availAt : Nat → Nat) (wait_ms : Nat) : Nat :=
  if availAt wait_ms < 53 then
    if wait_ms + 1 ≥ RECV_TIMEOUT then wait_ms + 1
    else waitForBytes availAt (wait_ms + 1)
  else wait_ms
termination_by RECV_TIMEOUT - wait_ms
decreasing_by omega

/-- `updateStatus`: send the status request (pure I/O, no state), run
the wait loop, and return without touching any state when it timed
out; otherwise read the response and run the decode-and-diff tail. -/
def updateStatus (ctx : DeviceCtx) (availAt rsp : Nat → Nat) : DeviceCtx :=
  if waitForBytes availAt 0 ≥ RECV_TIMEOUT then ctx
  else updateStatusOk ctx rsp

/-- C2: after a full 53-byte status response is read, the dirty flag
`statusUpdated` is set by `updateStatus` iff at least one of the five
newly decoded words differs from the corresponding cached word; when
all five are equal, `currentState`, the five cached words and the dirty
flag are all left unchanged. -/
theorem updateStatus_dirty_iff (ctx : DeviceCtx) (rsp : Nat → Nat)
    (hflag : ctx.statusUpdated = false) :
    ((updateStatusOk ctx rsp).statusUpdated = true ↔
      (decodeWord rsp 29 ≠ ctx.cachew1 ∨ decodeWord rsp 34 ≠ ctx.cachew2 ∨
        decodeWord rsp 39 ≠ ctx.cachew3 ∨ decodeWord rsp 44 ≠ ctx.cachew4 ∨
        decodeWord rsp 49 ≠ ctx.cachew5)) ∧
    (¬(decodeWord rsp 29 ≠ ctx.cachew1 ∨ decodeWord rsp 34 ≠ ctx.cachew2 ∨
        decodeWord rsp 39 ≠ ctx.cachew3 ∨ decodeWord rsp 44 ≠ ctx.cachew4 ∨
        decodeWord rsp 49 ≠ ctx.cachew5) →
      (updateStatusOk ctx rsp).currentState = ctx.currentState ∧
      (updateStatusOk ctx rsp).cachew1 = ctx.cachew1 ∧
      (updateStatusOk ctx rsp).cachew2 = ctx.cachew2 ∧
      (updateStatusOk ctx rsp).cachew3 = ctx.cachew3 ∧
      (updateStatusOk ctx rsp).cachew4 = ctx.cachew4 ∧
      (updateStatusOk ctx rsp).cachew5 = ctx.cachew5 ∧
      (updateStatusOk ctx rsp).statusUpdated = false) := by
  unfold updateStatusOk
  by_cases h : decodeWord rsp 29 ≠ ctx.cachew1 ∨ decodeWord rsp 34 ≠ ctx.cachew2 ∨
      decodeWord rsp 39 ≠ ctx.cachew3 ∨ decodeWord rsp 44 ≠ ctx.cachew4 ∨
      decodeWord rsp 49 ≠ ctx.cachew5
  · rw [if_pos h]
    exact ⟨by simpa using h, fun hcon => absurd h hcon⟩
  · rw [if_neg h]
    exact ⟨by simpa [hflag] using h, fun _ => ⟨rfl, rfl, rfl, rfl, rfl, rfl, hflag⟩⟩

/-- All-false initial device state (as at boot). -/
def st0 : State_t :=
  ⟨false, false, false, false, false, false, false, false, false, false, false,
   false, false, false, false, false, false, false, false, false, false, false,
   false, false⟩

/-- The globals as `connectMonitor` leaves them: clean flag, all ten
word variables at the `0xFFFF` sentinel. -/
def ctx0 : DeviceCtx :=
  ⟨st0, false, 0xFFFF, 0xFFFF, 0xFFFF, 0xFFFF, 0xFFFF,
   0xFFFF, 0xFFFF, 0xFFFF, 0xFFFF, 0xFFFF⟩

/-- A concrete 53-byte status response: ASCII `'0'` everywhere except
byte 29, which is `'8'`, so word 1 decodes to `0x8000` (power on). -/
def rsp0 : Nat → Nat := fun i => if i = 29 then 0x38 else 0x30

/-- Witness for C2: on the sentinel cache every word differs, and the
call sets the dirty flag. -/
theorem updateStatus_dirty_iff_witness :
    (updateStatusOk ctx0 rsp0).statusUpdated = true ↔
      (decodeWord rsp0 29 ≠ ctx0.cachew1 ∨ decodeWord rsp0 34 ≠ ctx0.cachew2 ∨
        decodeWord rsp0 39 ≠ ctx0.cachew3 ∨ decodeWord rsp0 44 ≠ ctx0.cachew4 ∨
        decodeWord rsp0 49 ≠ ctx0.cachew5) :=
  (updateStatus_dirty_iff ctx0 rsp0 rfl).1

/-- C3: `updateStatus` builds each of the five 16-bit status words from
the 4 response bytes at its fixed offsets (29–32, 34–37, 39–42, 44–47,
49–52), one nibble per byte with the byte reduced by `0x30`; and on a
poll that rewrites the snapshot (decoded words differ from the cache),
the snapshot's `m_isPowered` is true exactly when bit `0x8000` of the
decoded word 1 is set. -/
theorem updateStatus_decode_power (ctx : DeviceCtx) (rsp : Nat → Nat)
    (hdiff : decodeWord rsp 29 ≠ ctx.cachew1 ∨ decodeWord rsp 34 ≠ ctx.cachew2 ∨
      decodeWord rsp 39 ≠ ctx.cachew3 ∨ decodeWord rsp 44 ≠ ctx.cachew4 ∨
      decodeWord rsp 49 ≠ ctx.cachew5) :
    (updateStatusOk ctx rsp).statusw1
        = ((((rsp 29 : Int) - 0x30) * 4096 + ((rsp 30 : Int) - 0x30) * 256 +
            ((rsp 31 : Int) - 0x30) * 16 + ((rsp 32 : Int) - 0x30)).emod 65536).toNat ∧
    (updateStatusOk ctx rsp).statusw2
        = ((((rsp 34 : Int) - 0x30) * 4096 + ((rsp 35 : Int) - 0x30) * 256 +
            ((rsp 36 : Int) - 0x30) * 16 + ((rsp 37 : Int) - 0x30)).emod 65536).toNat ∧
    (updateStatusOk ctx rsp).statusw3
        = ((((rsp 39 : Int) - 0x30) * 4096 + ((rsp 40 : Int) - 0x30) * 256 +
            ((rsp 41 : Int) - 0x30) * 16 + ((rsp 42 : Int) - 0x30)).emod 65536).toNat ∧
    (updateStatusOk ctx rsp).statusw4
        = ((((rsp 44 : Int) - 0x30) * 4096 + ((rsp 45 : Int) - 0x30) * 256 +
            ((rsp 46 : Int) - 0x30) * 16 + ((rsp 47 : Int) - 0x30)).emod 65536).toNat ∧
    (updateStatusOk ctx rsp).statusw5
        = ((((rsp 49 : Int) - 0x30) * 4096 + ((rsp 50 : Int) - 0x30) * 256 +
            ((rsp 51 : Int) - 0x30) * 16 + ((rsp 52 : Int) - 0x30)).emod 65536).toNat ∧
    ((updateStatusOk ctx rsp).currentState.m_isPowered = true ↔
      decodeWord rsp 29 &&& 0x8000 ≠ 0) := by
  unfold updateStatusOk
  rw [if_pos hdiff]
  refine ⟨rfl, rfl, rfl, rfl, rfl, ?_⟩
  show maskBit (decodeWord rsp 29) POWER_ON_STATUS = true ↔
    decodeWord rsp 29 &&& 0x8000 ≠ 0
  simp [maskBit, POWER_ON_STATUS, bne_iff_ne]

/-- Witness for C3: on the concrete response `rsp0` the fresh snapshot
reports power following bit `0x8000` of word 1. -/
theorem updateStatus_decode_power_witness :
    (updateStatusOk ctx0 rsp0).currentState.m_isPowered = true ↔
      decodeWord rsp0 29 &&& 0x8000 ≠ 0 :=
  (updateStatus_decode_power ctx0 rsp0 (Or.inl (by decide))).2.2.2.2.2

theorem waitForBytes_stuck (availAt : Nat → Nat)
    (h : ∀ t, t < RECV_TIMEOUT → availAt t < 53) :
    ∀ (k w : Nat), RECV_TIMEOUT - w ≤ k → w < RECV_TIMEOUT →
      waitForBytes availAt w = RECV_TIMEOUT := by
  intro k
  induction k with
  | zero =>
    intro w h1 h2
    omega
  | succ k ih =>
    intro w h1 h2
    rw [waitForBytes]
    rw [if_pos (h w h2)]
    by_cases hb : w + 1 ≥ RECV_TIMEOUT
    · rw [if_pos hb]; omega
    · rw [if_neg hb]
      exact ih (w + 1) (by omega) (by omega)

/-- C9: when fewer than 53 bytes ever become available before the wait
counter reaches `RECV_TIMEOUT`, `updateStatus` returns with every piece
of state — the `DeviceState` fields, the five cached words (and the
working words) and the dirty flag — exactly as before the call. -/
theorem updateStatus_timeout_no_mutation (ctx : DeviceCtx)
    (availAt rsp : Nat → Nat)
    (h : ∀ t, t < RECV_TIMEOUT → availAt t < 53) :
    updateStatus ctx availAt rsp = ctx := by
  unfold updateStatus
  rw [waitForBytes_stuck availAt h (RECV_TIMEOUT - 0) 0 le_rfl (by decide)]
  rw [if_pos le_rfl]

/-- Witness for C9: a socket that never delivers a byte leaves the
boot-time context untouched. -/
theorem updateStatus_timeout_witness :
    updateStatus ctx0 (fun _ => 0) rsp0 = ctx0 :=
  updateStatus_timeout_no_mutation ctx0 (fun _ => 0) rsp0
    (fun _ _ => show (0 : Nat) < 53 by decide)

/-- `#define MAX_WAITERS (2)`. -/
def MAX_WAITERS : Nat := 2

/-- `StatusWaiter_t`: the long-poll observer — its connection (modelled
as an opaque client id) and the `millis()` timestamp at registration. -/
structure StatusWaiter_t where
  m_client : Nat
  m_added_ms : Nat
deriving DecidableEq, Repr

/-- The hand-written `WaiterQueue` class (a `Queue` clone kept separate
"due to smart pointers in wificlient").  Same counters as `Queue`,
backed by the inline `m_waiters[MAX_WAITERS]` array. -/
structure WaiterQueue where
  m_maxCount : Nat
  m_tail : Nat
  m_head : Nat
  m_count : Nat
  m_waiters : Nat → StatusWaiter_t

/-- `WaiterQueue()` constructor: `m_maxCount = MAX_WAITERS`, counters
zero, array contents arbitrary. -/
def WaiterQueue.mkEmpty (init : Nat → StatusWaiter_t) : WaiterQueue :=
  ⟨MAX_WAITERS, 0, 0, 0, init⟩

/-- `WaiterQueue::push`, exactly as written in the source: when not at
capacity it stores the new waiter at `m_waiters[m_tail]` — not at
`m_head`, unlike `Queue::push` — then increments `m_head` (with
wrap-around) and `m_count`. -/
def WaiterQueue.push (q : WaiterQueue) (t : StatusWaiter_t) : WaiterQueue :=
  if q.m_count + 1 > q.m_maxCount then q
  else
    { q with
      m_waiters := fun i => if i = q.m_tail then t else q.m_waiters i,
      m_head := if q.m_head + 1 ≥ q.m_maxCount then 0 else q.m_head + 1,
      m_count := q.m_count + 1 }

/-- `WaiterQueue::pop`: returns the waiter at `m_tail` (also stopping
its client, an I/O effect outside this model), advances `m_tail` with
wrap-around and decrements `m_count`. -/
def WaiterQueue.pop (q : WaiterQueue) : Option (StatusWaiter_t × WaiterQueue) :=
  if q.m_count = 0 then none
  else
    some (q.m_waiters q.m_tail,
      { q with
        m_tail := if q.m_tail + 1 ≥ q.m_maxCount then 0 else q.m_tail + 1,
        m_count := q.m_count - 1 })

/-- `WaiterQueue::getCount`. -/
def WaiterQueue.getCount (q : WaiterQueue) : Nat := q.m_count

/-- Perform `n` `WaiterQueue::pop` calls, collecting the waiters that
the notification loop would deliver a terminal signal to, in order. -/
def WaiterQueue.popN : WaiterQueue → Nat → List StatusWaiter_t
  | _, 0 => []
  | q, n + 1 =>
    match q.pop with
    | none => []
    | some (x, q') => x :: q'.popN n

/-- The `statusWaitURL` branch of `handleReq`: when the registry is not
at capacity the waiter is stored and no response is sent yet (the
long-poll is now pending, terminal signal to come from
`checkStatusNotification`); when it is full the request is answered
`503 Service Unavailable` immediately and the registry is untouched. -/
def handleStatusWait (wq : WaiterQueue) (w : StatusWaiter_t) :
    Option HttpResp × WaiterQueue :=
  if wq.getCount < MAX_WAITERS then (none, wq.push w)
  else (some HttpResp.unavailable503, wq)

/-- Arbitrary initial waiter-array contents. -/
def winit : Nat → StatusWaiter_t := fun _ => ⟨0, 0⟩

def w1ex : StatusWaiter_t := ⟨1, 100⟩
def w2ex : StatusWaiter_t := ⟨2, 200⟩

/-- The registry after registering `w1ex` then `w2ex` from empty. -/
def wq2ex : WaiterQueue :=
  ((WaiterQueue.mkEmpty winit).push w1ex).push w2ex

/-- C4 (code bug): because `WaiterQueue::push` stores at `m_tail`
instead of `m_head`, registering a second waiter while the first is
still pending overwrites the first waiter's slot: the two entries are
then the second waiter and the untouched initial array junk, both pops
deliver those, and the first waiter's handle is gone — it can never
receive any terminal signal. -/
theorem waiterQueue_overwrite_bug :
    wq2ex.m_count = 2 ∧
    wq2ex.m_waiters 0 = w2ex ∧
    wq2ex.m_waiters 1 = winit 1 ∧
    wq2ex.popN 2 = [w2ex, winit 1] ∧
    w1ex ∉ wq2ex.popN 2 := by
  decide

/-- C8: from an empty registry, the first `MAX_WAITERS` registrations
are accepted (no immediate response — each waiter is now pending),
and the next registration while the registry is still full is answered
`503 Service Unavailable` with the registry left exactly as it was. -/
theorem statusWait_capacity (init : Nat → StatusWaiter_t)
    (w1 w2 w3 : StatusWaiter_t) :
    (handleStatusWait (WaiterQueue.mkEmpty init) w1).1 = none ∧
    ((handleStatusWait (WaiterQueue.mkEmpty init) w1).2).m_count = 1 ∧
    (handleStatusWait
        (handleStatusWait (WaiterQueue.mkEmpty init) w1).2 w2).1 = none ∧
    ((handleStatusWait
        (handleStatusWait (WaiterQueue.mkEmpty init) w1).2 w2).2).m_count = 2 ∧
    (handleStatusWait
        ((handleStatusWait
          (handleStatusWait (WaiterQueue.mkEmpty init) w1).2 w2).2) w3).1
      = some HttpResp.unavailable503 ∧
    (handleStatusWait
        ((handleStatusWait
          (handleStatusWait (WaiterQueue.mkEmpty init) w1).2 w2).2) w3).2
      = (handleStatusWait
          (handleStatusWait (WaiterQueue.mkEmpty init) w1).2 w2).2 :=
  ⟨rfl, rfl, rfl, rfl, rfl, rfl⟩
